import Mathlib

/-!
Shallow embedding of the expression-evaluation core of `rclc_lib`
(`src/stack.rs`): the shunting-yard token-ordering engine (`Stack.push`
and its helpers) and the postfix reducer (`Stack.calculate`).

Rust `Vec` push/pop at the back is embedded as a Lean `List` whose HEAD is
the TOP of the stack for `queue` and `values` (push = cons, pop = head),
while `output` keeps push order (push = append at the end), matching the
index-order traversal in `calculate`.

The Rust methods mutate `self` and return `Result<(), CalcError>`; they are
embedded as pure functions returning the post-state paired with
`Option CalcError`, where the returned state reflects exactly the mutations
performed before an error, so "state unchanged on error" claims are
expressible.

The numeric collaborator `Value` (`value.rs`) and the error enum
(`errors.rs`) are not part of the provided source; the error constructors
are reconstructed from their uses inside `stack.rs`, and the `Value`
operations are modelled from the spec (see the doc comments below).
-/

/-- Error taxonomy. The constructors and their payloads are exactly those
constructed inside `stack.rs`; `DomainError` stands for the domain failures
raised by the external `Value` operations (`errors.rs` is not under the
provided source), collapsed into one constructor carrying a description. -/
inductive CalcError where
  | TooManyOps : CalcError
  | InsufficientOps : CalcError
  | EmptyValue : CalcError
  | EmptyExpression : CalcError
  | ClosingBracketMismatch : CalcError
  | Unreachable : CalcError
  | InvalidOp : String → CalcError
  | FunctionNoArgs : String → CalcError
  | FunctionUnfinished : String → CalcError
  | FunctionNotEnoughArgs : String → Nat → CalcError
  | NotForNegativeInt : String → CalcError
  | ArgumentOutOfRange : String → String → String → CalcError
  | OnlyInt : String → CalcError
  | DomainError : String → CalcError
deriving DecidableEq, Repr

/-- Modelled from the spec: the closed set of numeric representations of the
external `Value` collaborator ({exact integer, floating point, exact
rational, complex}); `value.rs` is not under the provided source. Exact
integers are `Int` (BigInt); the floating and complex payloads are kept as
rationals purely as inert placeholders — no claim computes with them. -/
inductive Value where
  | Int : Int → Value
  | Float : Rat → Value
  | Rational : Rat → Value
  | Complex : Rat → Rat → Value
deriving DecidableEq, Repr

/-- Modelled from the spec: a binary `Value` operation that no claim
exercises; the spec keeps `Value` opaque ("the engine never inspects
representation; it only invokes named operations and forwards their
outcome"), so these are modelled as an opaque-outcome domain failure
carrying the operation name. Only the name is ever observable here. -/
def Value.externalBin (name : String) (_ _ : Value) : Except CalcError Value :=
  .error (.DomainError name)

/-- Modelled from the spec: a unary `Value` operation that no claim
exercises; see `Value.externalBin`. -/
def Value.externalUn (name : String) (_ : Value) : Except CalcError Value :=
  .error (.DomainError name)

/-- Modelled from the spec: exact-integer addition. Claims exercise only the
exact-integer case; other representation mixes are an external capability
and collapse to a domain failure. -/
def Value.addition : Value → Value → Except CalcError Value
  | .Int a, .Int b => .ok (.Int (a + b))
  | _, _ => .error (.DomainError "addition")

/-- Modelled from the spec: exact-integer subtraction (see `Value.addition`). -/
def Value.subtract : Value → Value → Except CalcError Value
  | .Int a, .Int b => .ok (.Int (a - b))
  | _, _ => .error (.DomainError "subtract")

/-- Modelled from the spec: exact-integer multiplication (see `Value.addition`). -/
def Value.multiply : Value → Value → Except CalcError Value
  | .Int a, .Int b => .ok (.Int (a * b))
  | _, _ => .error (.DomainError "multiply")

/-- Modelled from the spec: power on exact integers with a non-negative
exponent; other cases are an external capability (see `Value.addition`). -/
def Value.power : Value → Value → Except CalcError Value
  | .Int a, .Int b => if 0 ≤ b then .ok (.Int (a ^ b.toNat)) else .error (.DomainError "power")
  | _, _ => .error (.DomainError "power")

/-- Modelled from the spec: unary negation on exact integers. -/
def Value.negate : Value → Except CalcError Value
  | .Int a => .ok (.Int (-a))
  | _ => .error (.DomainError "negate")

/-- Modelled from the spec: factorial requires a non-negative exact
integer; a negative or non-integer argument is a domain error. -/
def Value.fact : Value → Except CalcError Value
  | .Int a => if 0 ≤ a then .ok (.Int (Nat.factorial a.toNat)) else .error (.DomainError "fact")
  | _ => .error (.DomainError "fact")

/-- Modelled from the spec: `sqr` squares its argument; claims exercise the
exact-integer case only. -/
def Value.sqr : Value → Except CalcError Value
  | .Int a => .ok (.Int (a * a))
  | _ => .error (.DomainError "sqr")

/-- Modelled from the spec: the zero test on a `Value`. -/
def Value.is_zero : Value → Bool
  | .Int a => a = 0
  | .Float q => q = 0
  | .Rational q => q = 0
  | .Complex re im => re = 0 ∧ im = 0

def Value.divide := Value.externalBin "divide"
def Value.div_int := Value.externalBin "div_int"
def Value.reminder := Value.externalBin "reminder"
def Value.eq := Value.externalBin "eq"
def Value.neq := Value.externalBin "neq"
def Value.less := Value.externalBin "less"
def Value.lesseq := Value.externalBin "lesseq"
def Value.greater := Value.externalBin "greater"
def Value.greatereq := Value.externalBin "greatereq"
def Value.logical_and := Value.externalBin "logical_and"
def Value.logical_or := Value.externalBin "logical_or"
def Value.bit_or := Value.externalBin "bit_or"
def Value.bit_xor := Value.externalBin "bit_xor"
def Value.bit_and := Value.externalBin "bit_and"
def Value.bit_shl := Value.externalBin "bit_shl"
def Value.bit_shr := Value.externalBin "bit_shr"
def Value.gcd := Value.externalBin "gcd"
def Value.lcm := Value.externalBin "lcm"
def Value.logical_not := Value.externalUn "logical_not"
def Value.bit_not := Value.externalUn "bit_not"
def Value.sin := Value.externalUn "sin"
def Value.cos := Value.externalUn "cos"
def Value.tan := Value.externalUn "tan"
def Value.asin := Value.externalUn "asin"
def Value.acos := Value.externalUn "acos"
def Value.atan := Value.externalUn "atan"
def Value.sinh := Value.externalUn "sinh"
def Value.cosh := Value.externalUn "cosh"
def Value.tanh := Value.externalUn "tanh"
def Value.asinh := Value.externalUn "asinh"
def Value.acosh := Value.externalUn "acosh"
def Value.atanh := Value.externalUn "atanh"
def Value.ln := Value.externalUn "ln"
def Value.exp := Value.externalUn "exp"
def Value.norm := Value.externalUn "norm"
def Value.re := Value.externalUn "re"
def Value.im := Value.externalUn "im"
def Value.conj := Value.externalUn "conj"
def Value.round := Value.externalUn "round"
def Value.ceil := Value.externalUn "ceil"
def Value.floor := Value.externalUn "floor"
def Value.trunc := Value.externalUn "trunc"
def Value.abs := Value.externalUn "abs"
def Value.signum := Value.externalUn "signum"
def Value.sqrt := Value.externalUn "sqrt"
def Value.cbrt := Value.externalUn "cbrt"
def Value.ratio := Value.externalUn "ratio"
def Value.fract := Value.externalUn "fract"

/-- `Entry` embeds the Rust `enum Entry`: `Val(Value)`, `Op(String, i32,
bool)` (symbol, priority, right-associative), `OpenB`, `Func(String, usize)`
(name, arity). -/
inductive Entry where
  | Val : Value → Entry
  | Op : String → Int → Bool → Entry
  | OpenB : Entry
  | Func : String → Nat → Entry
deriving DecidableEq, Repr

def Entry.isFunc : Entry → Bool
  | .Func _ _ => true
  | _ => false

def PRI_IMMEDIATE : Int := 99

def FACTORIAL : String := "!!!"

def UNARY_MINUS : String := "---"

/-- The recognized function set `STD_FUNCS`, in source order. -/
def STD_FUNCS : List String :=
  ["sqr", "sqrt", "cbrt", "exp", "ln", "abs", "signum", "round", "ceil", "trunc",
   "floor", "ratio", "sin", "cos", "tan", "asin", "acos", "atan", "sinh", "cosh",
   "tanh", "asinh", "acosh", "atanh", "norm", "conj", "im", "re", "fract",
   "iif", "gcd", "lcm", "deg", "rad", "fib"]

/-- `Stack` embeds the Rust struct of the same name: the pending
operator/function `queue`, the postfix `output`, the reduction-phase operand
stack `values`, and the `result` field (initialized to `Float 0.0`). -/
structure Stack where
  queue : List Entry
  output : List Entry
  values : List Value
  result : Value
deriving DecidableEq, Repr

/-- `Stack::priority`: the static precedence table, symbol to
(priority, right-associative); `(0, false)` means "not a recognized
operator". -/
def Stack.priority (op : String) : Int × Bool :=
  if op = FACTORIAL then (PRI_IMMEDIATE, false)
  else if op = UNARY_MINUS ∨ op = "~" ∨ op = "!" then (20, true)
  else if op = "**" then (17, true)
  else if op = "<<" ∨ op = ">>" then (15, false)
  else if op = "*" ∨ op = "/" ∨ op = "//" ∨ op = "%" then (12, false)
  else if op = "+" ∨ op = "-" then (8, false)
  else if op = "&" ∨ op = "^" then (7, false)
  else if op = "|" then (5, false)
  else if op = "&&" then (4, false)
  else if op = "||" then (3, false)
  else if op = "==" ∨ op = "!=" ∨ op = "<" ∨ op = ">" ∨ op = "<=" ∨ op = ">=" then (2, false)
  else (0, false)

/-- `Stack::is_func`: membership in `STD_FUNCS`. -/
def Stack.is_func (s : String) : Bool := STD_FUNCS.contains s

/-- `Stack::pop_while_priority` on (queue, output), head of `queue` = top.
An `OpenB` at the top is pushed back and stops the loop; a `Func` is moved
to output and the loop continues; an `Op` is moved to output and the loop
continues iff its priority is strictly greater, or equal with the queued
operator not right-associative, else it is pushed back and the loop stops;
a `Val` (unreachable in practice) is popped, dropped, and the loop stops. -/
def Stack.pop_while_priority (priority : Int) :
    List Entry → List Entry → List Entry × List Entry
  | [], output => ([], output)
  | .OpenB :: rest, output => (.OpenB :: rest, output)
  | .Func n a :: rest, output =>
      Stack.pop_while_priority priority rest (output ++ [.Func n a])
  | .Op s p r :: rest, output =>
      if p > priority ∨ (p = priority ∧ r = false) then
        Stack.pop_while_priority priority rest (output ++ [.Op s p r])
      else (.Op s p r :: rest, output)
  | .Val _ :: rest, output => (rest, output)

/-- `Stack::update_func_args`: if the top of the queue is a `Func`, its
arity is incremented in place (unconditionally). -/
def Stack.update_func_args : List Entry → List Entry
  | .Func name args :: rest => .Func name (args + 1) :: rest
  | q => q

/-- `Stack::pop_until_bracket` on (queue, output): entries are moved to
output until an `OpenBracket` is popped; then `update_func_args` runs and,
when `keep_bracket`, the bracket is pushed back. An emptied queue is a
`ClosingBracketMismatch` (with the drained state). -/
def Stack.pop_until_bracket (keep_bracket : Bool) :
    List Entry → List Entry → List Entry × List Entry × Option CalcError
  | [], output => ([], output, some .ClosingBracketMismatch)
  | .OpenB :: rest, output =>
      let q := Stack.update_func_args rest
      ((if keep_bracket then Entry.OpenB :: q else q), output, none)
  | e :: rest, output => Stack.pop_until_bracket keep_bracket rest (output ++ [e])

/-- `Stack::pop_functions` on (queue, output): `Func` entries at the top of
the queue are moved to output; the first non-`Func` entry is pushed back
and stops the loop. -/
def Stack.pop_functions : List Entry → List Entry → List Entry × List Entry
  | [], output => ([], output)
  | .Func n a :: rest, output => Stack.pop_functions rest (output ++ [.Func n a])
  | e :: rest, output => (e :: rest, output)

/-- `Stack::pop_all` on (queue, output): drains the queue to output;
`OpenB` entries are silently discarded, a `Val` entry (never queued) is
`Unreachable`. -/
def Stack.pop_all : List Entry → List Entry → List Entry × List Entry × Option CalcError
  | [], output => ([], output, none)
  | .OpenB :: rest, output => Stack.pop_all rest output
  | .Op s p r :: rest, output => Stack.pop_all rest (output ++ [.Op s p r])
  | .Func n a :: rest, output => Stack.pop_all rest (output ++ [.Func n a])
  | .Val _ :: rest, output => (rest, output, some .Unreachable)

/-- `Stack::new`. -/
def Stack.new : Stack := ⟨[], [], [], .Float 0⟩

/-- `Stack::push`: empty symbol pushes the operand (or fails with
`EmptyValue`); a recognized function name is queued with arity 0; `(` is
queued; `)` and `;` pop until the bracket (the separator keeping it);
otherwise the symbol is looked up in the priority table — priority 0 is
`InvalidOp`, the immediate priority drains functions and appends the
operator directly to output, and any other operator pops by priority and
is queued. -/
def Stack.push (s : Stack) (op : String) (val : Option Value) : Stack × Option CalcError :=
  if op = "" then
    match val with
    | some v => ({ s with output := s.output ++ [Entry.Val v] }, none)
    | none => (s, some CalcError.EmptyValue)
  else if Stack.is_func op then
    ({ s with queue := Entry.Func op 0 :: s.queue }, none)
  else if op = "(" then
    ({ s with queue := Entry.OpenB :: s.queue }, none)
  else if op = ")" then
    let r := Stack.pop_until_bracket false s.queue s.output
    ({ s with queue := r.1, output := r.2.1 }, r.2.2)
  else if op = ";" then
    let r := Stack.pop_until_bracket true s.queue s.output
    ({ s with queue := r.1, output := r.2.1 }, r.2.2)
  else if (Stack.priority op).1 = 0 then
    (s, some (CalcError.InvalidOp op))
  else if (Stack.priority op).1 = PRI_IMMEDIATE then
    let r := Stack.pop_functions s.queue s.output
    ({ s with queue := r.1, output := r.2 ++ [Entry.Op op (Stack.priority op).1 false] }, none)
  else
    let r := Stack.pop_while_priority (Stack.priority op).1 s.queue s.output
    let q := Entry.Op op (Stack.priority op).1 (Stack.priority op).2 :: r.1
    ({ s with queue := q, output := r.2 }, none)

/-- `Stack::increase_func_argc`: increments the arity of a `Func` at the
top of the queue, otherwise leaves the queue unchanged; never fails. -/
def Stack.increase_func_argc (s : Stack) : Stack × Option CalcError :=
  ({ s with queue := Stack.update_func_args s.queue }, none)

/-- The body of the `one_arg_op!` macro: pop one value (`TooManyOps` when
empty), apply the `Value` operation, push the result. On a domain error the
operand has already been consumed. -/
def one_arg_op (f : Value → Except CalcError Value) :
    List Value → List Value × Option CalcError
  | [] => ([], some .TooManyOps)
  | v :: rest =>
    match f v with
    | .ok r => (r :: rest, none)
    | .error e => (rest, some e)

/-- The body of the `two_arg_op!` macro: pop `v2` then `v1` (`TooManyOps`
when fewer than two), apply `v1.op(v2)`, push the result. -/
def two_arg_op (f : Value → Value → Except CalcError Value) :
    List Value → List Value × Option CalcError
  | v2 :: v1 :: rest =>
    match f v1 v2 with
    | .ok r => (r :: rest, none)
    | .error e => (rest, some e)
  | values => (values, some .TooManyOps)

/-- The pop loop of the `function_op!` macro: pop `n` values off the stack,
keeping the LAST one popped (the deepest of the `n`, i.e. the
first-supplied argument); `none` when `n = 0` or the stack runs out. -/
def pop_n_keep_last : Nat → List Value → Option (Value × List Value)
  | 0, _ => none
  | 1, [] => none
  | 1, v :: rest => some (v, rest)
  | _ + 2, [] => none
  | n + 2, _ :: rest => pop_n_keep_last (n + 1) rest

/-- The body of the `function_op!` macro: arity 0 is `FunctionNoArgs`, an
underfull stack is `FunctionUnfinished`, otherwise `args` operands are
popped and the `Value` operation is applied to the last popped one (the
source comment itself notes "the func in the macro uses only one argument:
the first"). -/
def function_op (name : String) (f : Value → Except CalcError Value)
    (args : Nat) (values : List Value) : List Value × Option CalcError :=
  if args = 0 then (values, some (.FunctionNoArgs name))
  else if values.length < args then (values, some (.FunctionUnfinished name))
  else
    match pop_n_keep_last args values with
    | some (v, rest) =>
      match f v with
      | .ok r => (r :: rest, none)
      | .error e => (rest, some e)
    | none => (values, some .Unreachable)

def Stack.negate := one_arg_op Value.negate
def Stack.logical_not := one_arg_op Value.logical_not
def Stack.fact := one_arg_op Value.fact
def Stack.bit_not := one_arg_op Value.bit_not
def Stack.eq := two_arg_op Value.eq
def Stack.neq := two_arg_op Value.neq
def Stack.less := two_arg_op Value.less
def Stack.lesseq := two_arg_op Value.lesseq
def Stack.greater := two_arg_op Value.greater
def Stack.greatereq := two_arg_op Value.greatereq
def Stack.logical_and := two_arg_op Value.logical_and
def Stack.logical_or := two_arg_op Value.logical_or
def Stack.bit_or := two_arg_op Value.bit_or
def Stack.bit_xor := two_arg_op Value.bit_xor
def Stack.bit_and := two_arg_op Value.bit_and
def Stack.bit_shl := two_arg_op Value.bit_shl
def Stack.bit_shr := two_arg_op Value.bit_shr
def Stack.power := two_arg_op Value.power
def Stack.divide := two_arg_op Value.divide
def Stack.reminder := two_arg_op Value.reminder
def Stack.div_int := two_arg_op Value.div_int
def Stack.addition := two_arg_op Value.addition
def Stack.subtract := two_arg_op Value.subtract
def Stack.multiply := two_arg_op Value.multiply
def Stack.sin := function_op "sin" Value.sin
def Stack.cos := function_op "cos" Value.cos
def Stack.tan := function_op "tan" Value.tan
def Stack.asin := function_op "asin" Value.asin
def Stack.acos := function_op "acos" Value.acos
def Stack.atan := function_op "atan" Value.atan
def Stack.sinh := function_op "sinh" Value.sinh
def Stack.cosh := function_op "cosh" Value.cosh
def Stack.tanh := function_op "tanh" Value.tanh
def Stack.asinh := function_op "asinh" Value.asinh
def Stack.acosh := function_op "acosh" Value.acosh
def Stack.atanh := function_op "atanh" Value.atanh
def Stack.norm := function_op "norm" Value.norm
def Stack.conj := function_op "conj" Value.conj
def Stack.im := function_op "im" Value.im
def Stack.re := function_op "re" Value.re
def Stack.fract := function_op "fract" Value.fract
def Stack.abs := function_op "abs" Value.abs
def Stack.floor := function_op "floor" Value.floor
def Stack.ceil := function_op "ceil" Value.ceil
def Stack.round := function_op "round" Value.round
def Stack.trunc := function_op "trunc" Value.trunc
def Stack.sqr := function_op "sqr" Value.sqr
def Stack.sqrt := function_op "sqrt" Value.sqrt
def Stack.cbrt := function_op "cbrt" Value.cbrt
def Stack.exp := function_op "exp" Value.exp
def Stack.ln := function_op "ln" Value.ln
def Stack.signum := function_op "signum" Value.signum
def Stack.ratio := function_op "ratio" Value.ratio

/-- `Stack::iif`: fewer than 3 declared or available arguments is
`FunctionNotEnoughArgs("iif", 3)`; otherwise `args - 3` redundant values
are popped and DISCARDED FROM THE TOP of the operand stack, then the
false-branch, true-branch and condition are popped in that order, and the
branch selected by the zero test of the condition is pushed. An operand
stack shorter than `args` would make the source panic on `unwrap`
(embedded as `Unreachable`). -/
def Stack.iif (args : Nat) (values : List Value) : List Value × Option CalcError :=
  if args < 3 ∨ values.length < 3 then
    (values, some (.FunctionNotEnoughArgs "iif" 3))
  else
    match values.drop (args - 3) with
    | v_false :: v_true :: v_cond :: rest =>
        ((if v_cond.is_zero then v_false else v_true) :: rest, none)
    | rest => (rest, some .Unreachable)

/-- The pairwise right-to-left fold shared by `Stack::gcd` and
`Stack::lcm`: starting from the top value, folds the binary `Value`
operation over the next `n` values. A stack exhausted early would make the
source panic on `unwrap` (embedded as `Unreachable`). -/
def fold_op (f : Value → Value → Except CalcError Value) :
    Nat → Value → List Value → List Value × Option CalcError
  | 0, v, rest => (v :: rest, none)
  | _ + 1, _, [] => ([], some .Unreachable)
  | n + 1, v, t :: rest =>
    match f v t with
    | .ok r => fold_op f n r rest
    | .error e => (rest, some e)

/-- `Stack::gcd`: fewer than 2 declared or available arguments is
`FunctionNotEnoughArgs("gcd", 2)`; otherwise folds `Value::gcd` pairwise
over all `args` supplied values. -/
def Stack.gcd (args : Nat) (values : List Value) : List Value × Option CalcError :=
  if args < 2 ∨ values.length < 2 then
    (values, some (.FunctionNotEnoughArgs "gcd" 2))
  else
    match values with
    | v :: rest => fold_op Value.gcd (args - 1) v rest
    | [] => ([], some .Unreachable)

/-- `Stack::lcm`: as `Stack.gcd` with `Value::lcm`. -/
def Stack.lcm (args : Nat) (values : List Value) : List Value × Option CalcError :=
  if args < 2 ∨ values.length < 2 then
    (values, some (.FunctionNotEnoughArgs "lcm" 2))
  else
    match values with
    | v :: rest => fold_op Value.lcm (args - 1) v rest
    | [] => ([], some .Unreachable)

/-- `Stack::deg`: zero declared arguments or an empty stack is
`FunctionNoArgs("deg")`; otherwise `args - 1` values are discarded from the
top and the remaining one is converted through `into_raw_f64` and scaled by
180/π. Modelled from the spec: the raw-float conversion and π-scaling are
not representable in this exact embedding; the conversion call is modelled
as an opaque domain failure, which the code propagates (the source's
success path is therefore absent here; no claim exercises it). -/
def Stack.deg (args : Nat) (values : List Value) : List Value × Option CalcError :=
  if args = 0 ∨ values = [] then (values, some (.FunctionNoArgs "deg"))
  else
    match values.drop (args - 1) with
    | _ :: rest => (rest, some (.DomainError "into_raw_f64"))
    | [] => ([], some .Unreachable)

/-- `Stack::rad`: as `Stack.deg` with the inverse scaling; same modelling
note applies. -/
def Stack.rad (args : Nat) (values : List Value) : List Value × Option CalcError :=
  if args = 0 ∨ values = [] then (values, some (.FunctionNoArgs "rad"))
  else
    match values.drop (args - 1) with
    | _ :: rest => (rest, some (.DomainError "into_raw_f64"))
    | [] => ([], some .Unreachable)

/-- The iterative Fibonacci loop of `Stack::fib`: `fb` and `prev`
accumulators, one addition per iteration. -/
def fib_while (fb prev : Int) : Nat → Int
  | 0 => fb
  | n + 1 => fib_while (fb + prev) fb n

/-- `Stack::fib`: zero declared arguments or an empty stack is
`FunctionNoArgs("fib")`; `args - 1` values are discarded from the top;
the remaining value must be an exact integer (`OnlyInt`), non-negative
(`NotForNegativeInt`), and at most 100000 (`ArgumentOutOfRange` carrying
the offending value and the accepted range); 0 yields 0, and otherwise the
iterative loop starting from `fb = 1`, `prev = 0` runs `i - 1` times. -/
def Stack.fib (args : Nat) (values : List Value) : List Value × Option CalcError :=
  if args = 0 ∨ values = [] then (values, some (.FunctionNoArgs "fib"))
  else
    match values.drop (args - 1) with
    | [] => ([], some .Unreachable)
    | v :: rest =>
      match v with
      | .Int i =>
        if i < 0 then (rest, some (.NotForNegativeInt "fib"))
        else if 100000 < i then
          (rest, some (.ArgumentOutOfRange "fib" (toString i) "[0..1_00_000]"))
        else if i = 0 then (Value.Int 0 :: rest, none)
        else (Value.Int (fib_while 1 0 (i.toNat - 1)) :: rest, none)
      | _ => (rest, some (.OnlyInt "fib"))

/-- `Stack::process_operator`: the symbol-to-handler dispatch on the
operand stack. -/
def process_operator (op : String) (values : List Value) : List Value × Option CalcError :=
  if op = "/" then Stack.divide values
  else if op = "*" then Stack.multiply values
  else if op = "+" then Stack.addition values
  else if op = "-" then Stack.subtract values
  else if op = "//" then Stack.div_int values
  else if op = "%" then Stack.reminder values
  else if op = "**" then Stack.power values
  else if op = UNARY_MINUS then Stack.negate values
  else if op = FACTORIAL then Stack.fact values
  else if op = "<<" then Stack.bit_shl values
  else if op = ">>" then Stack.bit_shr values
  else if op = "~" then Stack.bit_not values
  else if op = "!" then Stack.logical_not values
  else if op = "==" then Stack.eq values
  else if op = "!=" then Stack.neq values
  else if op = ">" then Stack.greater values
  else if op = ">=" then Stack.greatereq values
  else if op = "<" then Stack.less values
  else if op = "<=" then Stack.lesseq values
  else if op = "^" then Stack.bit_xor values
  else if op = "&" then Stack.bit_and values
  else if op = "|" then Stack.bit_or values
  else if op = "&&" then Stack.logical_and values
  else if op = "||" then Stack.logical_or values
  else (values, some (.InvalidOp op))

/-- `Stack::process_function`: the name-to-handler dispatch on the operand
stack, forwarding the declared arity. -/
def process_function (fname : String) (args : Nat) (values : List Value) :
    List Value × Option CalcError :=
  if fname = "sin" then Stack.sin args values
  else if fname = "cos" then Stack.cos args values
  else if fname = "tan" then Stack.tan args values
  else if fname = "asin" then Stack.asin args values
  else if fname = "acos" then Stack.acos args values
  else if fname = "atan" then Stack.atan args values
  else if fname = "sinh" then Stack.sinh args values
  else if fname = "cosh" then Stack.cosh args values
  else if fname = "tanh" then Stack.tanh args values
  else if fname = "asinh" then Stack.asinh args values
  else if fname = "acosh" then Stack.acosh args values
  else if fname = "atanh" then Stack.atanh args values
  else if fname = "ln" then Stack.ln args values
  else if fname = "exp" then Stack.exp args values
  else if fname = "norm" then Stack.norm args values
  else if fname = "re" then Stack.re args values
  else if fname = "im" then Stack.im args values
  else if fname = "conj" then Stack.conj args values
  else if fname = "round" then Stack.round args values
  else if fname = "ceil" then Stack.ceil args values
  else if fname = "floor" then Stack.floor args values
  else if fname = "trunc" then Stack.trunc args values
  else if fname = "abs" then Stack.abs args values
  else if fname = "signum" then Stack.signum args values
  else if fname = "sqr" then Stack.sqr args values
  else if fname = "sqrt" then Stack.sqrt args values
  else if fname = "cbrt" then Stack.cbrt args values
  else if fname = "ratio" then Stack.ratio args values
  else if fname = "fract" then Stack.fract args values
  else if fname = "iif" then Stack.iif args values
  else if fname = "gcd" then Stack.gcd args values
  else if fname = "lcm" then Stack.lcm args values
  else if fname = "deg" then Stack.deg args values
  else if fname = "rad" then Stack.rad args values
  else if fname = "fib" then Stack.fib args values
  else (values, some (.InvalidOp fname))

/-- The index loop of `Stack::calculate`: walks the output sequence in
order, pushing operands and dispatching operators and functions on the
operand stack; the first failure stops the walk with the operand stack as
it stands. -/
def calc_loop : List Entry → List Value → List Value × Option CalcError
  | [], values => (values, none)
  | .Val v :: rest, values => calc_loop rest (v :: values)
  | .Op op _ _ :: rest, values =>
    match process_operator op values with
    | (values', none) => calc_loop rest values'
    | (values', some e) => (values', some e)
  | .Func fname args :: rest, values =>
    match process_function fname args values with
    | (values', none) => calc_loop rest values'
    | (values', some e) => (values', some e)
  | .OpenB :: _, values => (values, some .Unreachable)

/-- `Stack::calculate`: drains the queue (`pop_all`), rejects an empty
output (`EmptyExpression`, before the result/values reset), resets
`result` and `values`, replays the output, and demands exactly one value on
the operand stack (`InsufficientOps` otherwise), which becomes the result. -/
def Stack.calculate (s : Stack) : Stack × Except CalcError Value :=
  match Stack.pop_all s.queue s.output with
  | (q, o, some e) => ({ s with queue := q, output := o }, .error e)
  | (q, o, none) =>
    if o = [] then ({ s with queue := q, output := o }, .error .EmptyExpression)
    else
      match calc_loop o [] with
      | (vals, some e) =>
          ({ s with queue := q, output := o, result := .Float 0, values := vals }, .error e)
      | ([v], none) =>
          ({ s with queue := q, output := o, result := v, values := [] }, .ok v)
      | (vals, none) =>
          ({ s with queue := q, output := o, result := .Float 0, values := vals },
           .error .InsufficientOps)

/-- Replays a list of `push` calls, ignoring per-push errors and keeping
the mutated state, exactly as the source's test corpus does (`let _ =
stack.push(...)`). -/
def run_pushes : Stack → List (String × Option Value) → Stack
  | s, [] => s
  | s, (op, v) :: rest => run_pushes (Stack.push s op v).1 rest

/-- Pushes a token program onto a fresh stack and calculates. -/
def run_program (prog : List (String × Option Value)) : Stack × Except CalcError Value :=
  Stack.calculate (run_pushes Stack.new prog)

/-- The pop loop of `function_op!` applied to a stack whose top `pre.length`
values are `pre` pops exactly `pre`, keeping its last element (the deepest
popped, i.e. the first-supplied argument). -/
theorem pop_n_keep_last_spec :
    ∀ (pre post : List Value) (v : Value), pre.getLast? = some v →
      pop_n_keep_last pre.length (pre ++ post) = some (v, post) := by
  intro pre
  induction pre with
  | nil => intro post v h; simp at h
  | cons a rest ih =>
    intro post v h
    cases rest with
    | nil =>
      simp [List.getLast?] at h
      subst h
      simp [pop_n_keep_last]
    | cons b rest2 =>
      have h2 : (b :: rest2).getLast? = some v := by
        rwa [List.getLast?_cons_cons] at h
      have hih := ih post v h2
      show pop_n_keep_last (rest2.length + 2) (a :: (b :: rest2 ++ post)) = some (v, post)
      rw [pop_n_keep_last]
      exact hih

/-- The iterative loop of `Stack::fib` started at a pair of consecutive
Fibonacci numbers lands `n` further along the sequence. -/
theorem fib_while_eq (n : Nat) : ∀ (k : Nat),
    fib_while (Nat.fib (k + 1)) (Nat.fib k) n = Nat.fib (n + k + 1) := by
  induction n with
  | zero => intro k; simp [fib_while]
  | succ m ih =>
    intro k
    rw [fib_while]
    have h : ((Nat.fib (k + 1) : Int) + (Nat.fib k : Int)) = ((Nat.fib (k + 1 + 1) : Nat) : Int) := by
      rw [Nat.fib_add_two]
      push_cast
      ring
    rw [h, ih (k + 1)]
    congr 2
    omega

/-- `pop_all` fully consumes the queue whenever it succeeds. -/
theorem pop_all_queue_nil : ∀ (q o q' o' : List Entry),
    Stack.pop_all q o = (q', o', none) → q' = [] := by
  intro q
  induction q with
  | nil =>
    intro o q' o' h
    simp only [Stack.pop_all] at h
    exact (Prod.mk.injEq _ _ _ _ ▸ h).1.symm
  | cons e rest ih =>
    intro o q' o' h
    cases e with
    | OpenB => exact ih o q' o' h
    | Op s p r => exact ih _ q' o' h
    | Func n a => exact ih _ q' o' h
    | Val w => simp only [Stack.pop_all, Prod.mk.injEq] at h; exact absurd h.2.2 (by simp)

/-- C1, counterexample: `sqr` dispatched with arity 2 on the two arguments
4 and 2 (supplied in that order, so 2 is topmost) consumes both but
computes `sqr(4) = 16`, not `sqr(2) = 4` as the claim states — both at the
dispatch level and end to end for the token stream of `sqr(4; 2)`. -/
theorem C1_counterexample :
    Stack.sqr 2 [Value.Int 2, Value.Int 4] = ([Value.Int 16], none)
  ∧ Stack.sqr 2 [Value.Int 2, Value.Int 4] ≠ ([Value.Int 4], none)
  ∧ (run_program [("sqr", none), ("(", none), ("", some (.Int 4)), (";", none),
      ("", some (.Int 2)), (")", none)]).2 = .ok (.Int 16)
  ∧ (run_program [("sqr", none), ("(", none), ("", some (.Int 4)), (";", none),
      ("", some (.Int 2)), (")", none)]).2 ≠ .ok (.Int 4) := by
  refine ⟨rfl, by decide, rfl, ?_⟩
  intro h
  have h16 : (Except.ok (Value.Int 16) : Except CalcError Value) = Except.ok (Value.Int 4) := h
  injection h16 with h2
  exact absurd h2 (by decide)

/-- C1, amended: every function dispatched through the `function_op!` macro
body with declared arity `n ≥ 1` and at least `n` stack values pops exactly
`n` operands and computes the function on the BOTTOM-most popped one (the
first-supplied argument, `pre.getLast?`), pushing the result over the rest;
in particular `sqr(4; 2)` yields `sqr(4) = 16`. -/
theorem C1_thm :
    (∀ (name : String) (f : Value → Except CalcError Value)
       (pre post : List Value) (v r : Value),
       1 ≤ pre.length → pre.getLast? = some v → f v = .ok r →
       function_op name f pre.length (pre ++ post) = (r :: post, none))
  ∧ (run_program [("sqr", none), ("(", none), ("", some (.Int 4)), (";", none),
      ("", some (.Int 2)), (")", none)]).2 = .ok (.Int 16) := by
  constructor
  · intro name f pre post v r h1 hv hf
    have h0 : ¬ (pre.length = 0) := by omega
    have hlen : ¬ ((pre ++ post).length < pre.length) := by
      simp [List.length_append]
    rw [function_op, if_neg h0, if_neg hlen, pop_n_keep_last_spec pre post v hv]
    simp only [hf]
  · rfl

/-- C1, witness for the amended theorem at `sqr` with arity 2 on the
operand stack of `sqr(4; 2)`. -/
theorem C1_witness :
    1 ≤ ([Value.Int 2, Value.Int 4] : List Value).length
  ∧ ([Value.Int 2, Value.Int 4] : List Value).getLast? = some (Value.Int 4)
  ∧ Value.sqr (Value.Int 4) = .ok (Value.Int 16)
  ∧ function_op "sqr" Value.sqr 2 [Value.Int 2, Value.Int 4] = ([Value.Int 16], none) := by
  refine ⟨by decide, rfl, rfl, ?_⟩
  have h := C1_thm.1 "sqr" Value.sqr [Value.Int 2, Value.Int 4] [] (Value.Int 4)
    (Value.Int 16) (by decide) rfl rfl
  simpa using h

/-- C2: the five end-to-end scenarios of the test corpus — `2+3*2+5 = 13`,
`2+3*(2+5)+1 = 24`, `2+sqr(5)-sqr(4;2) = 11`, `5+2**2**3+1 = 262`,
`3!!!+(3+2)!!! = 126` — pushed as token sequences with exact-integer
operands and reduced by `calculate`. -/
theorem C2_thm :
    (run_program [("", some (.Int 2)), ("+", none), ("", some (.Int 3)), ("*", none),
      ("", some (.Int 2)), ("+", none), ("", some (.Int 5))]).2 = .ok (.Int 13)
  ∧ (run_program [("", some (.Int 2)), ("+", none), ("", some (.Int 3)), ("*", none),
      ("(", none), ("", some (.Int 2)), ("+", none), ("", some (.Int 5)), (")", none),
      ("+", none), ("", some (.Int 1))]).2 = .ok (.Int 24)
  ∧ (run_program [("", some (.Int 2)), ("+", none), ("sqr", none), ("(", none),
      ("", some (.Int 5)), (")", none), ("-", none), ("sqr", none), ("(", none),
      ("", some (.Int 4)), (";", none), ("", some (.Int 2)), (")", none)]).2 = .ok (.Int 11)
  ∧ (run_program [("", some (.Int 5)), ("+", none), ("", some (.Int 2)), ("**", none),
      ("", some (.Int 2)), ("**", none), ("", some (.Int 3)), ("+", none),
      ("", some (.Int 1))]).2 = .ok (.Int 262)
  ∧ (run_program [("", some (.Int 3)), ("!!!", none), ("+", none), ("(", none),
      ("", some (.Int 3)), ("+", none), ("", some (.Int 2)), (")", none),
      ("!!!", none)]).2 = .ok (.Int 126) :=
  ⟨rfl, rfl, rfl, rfl, rfl⟩

/-- C3, counterexample: `iif` dispatched with arity 4 on the supplied
arguments `1; 10; 20; 30` (30 topmost) discards 30 — the TOPMOST value —
and uses the three nearest the BOTTOM (condition 1, true-branch 10,
false-branch 20), yielding 10; the claim's reading (discard from the
bottom, use the three nearest the top) would yield 20. -/
theorem C3_counterexample :
    Stack.iif 4 [Value.Int 30, Value.Int 20, Value.Int 10, Value.Int 1]
      = ([Value.Int 10], none)
  ∧ Stack.iif 4 [Value.Int 30, Value.Int 20, Value.Int 10, Value.Int 1]
      ≠ ([Value.Int 20], none) :=
  ⟨rfl, by decide⟩

/-- C3, amended: `iif` dispatched with declared arity `n ≥ 3` and at least
`n` stack values silently discards the extra `n − 3` arguments FROM THE TOP
of the operand stack (the last-supplied ones), using the three nearest the
bottom as condition/true-branch/false-branch; with exactly three arguments
`iif(0; 10; 20) = 20` and `iif(1; 10; 20) = 10`; with declared arity below
3 it fails with `FunctionNotEnoughArgs("iif", 3)`. -/
theorem C3_thm :
    (∀ (d rest : List Value) (vf vt vc : Value),
      Stack.iif (d.length + 3) (d ++ vf :: vt :: vc :: rest) =
        ((if vc.is_zero then vf else vt) :: rest, none))
  ∧ Stack.iif 3 [Value.Int 20, Value.Int 10, Value.Int 0] = ([Value.Int 20], none)
  ∧ Stack.iif 3 [Value.Int 20, Value.Int 10, Value.Int 1] = ([Value.Int 10], none)
  ∧ (∀ (args : Nat) (values : List Value), args < 3 →
      Stack.iif args values = (values, some (.FunctionNotEnoughArgs "iif" 3))) := by
  refine ⟨?_, rfl, rfl, ?_⟩
  · intro d rest vf vt vc
    have hc : ¬ (d.length + 3 < 3 ∨ (d ++ vf :: vt :: vc :: rest).length < 3) := by
      simp only [List.length_append, List.length_cons, not_or, not_lt]
      omega
    rw [Stack.iif, if_neg hc]
    have h3 : d.length + 3 - 3 = d.length := by omega
    rw [h3, List.drop_left]
  · intro args values h
    rw [Stack.iif, if_pos (Or.inl h)]

/-- C3, witness for the amended theorem: the error conjunct at arity 2 on
an empty operand stack, and the discard-from-the-top conjunct at the
counterexample input. -/
theorem C3_witness :
    (2 < 3)
  ∧ Stack.iif 2 [] = ([], some (.FunctionNotEnoughArgs "iif" 3))
  ∧ Stack.iif 4 [Value.Int 30, Value.Int 20, Value.Int 10, Value.Int 1]
      = ([Value.Int 10], none) := by
  refine ⟨by decide, C3_thm.2.2.2 2 [] (by decide), ?_⟩
  have h := C3_thm.1 [Value.Int 30] [] (Value.Int 20) (Value.Int 10) (Value.Int 1)
  simpa using h

/-- C4, counterexample: pushing the non-immediate operator `+` onto a stack
whose queue has `Func("sqr", 0)` at the top moves that `Function` entry to
the OUTPUT — it does not stay in the queue as the claim states. -/
theorem C4_counterexample :
    Stack.push ⟨[Entry.Func "sqr" 0], [], [], Value.Float 0⟩ "+" none =
      (⟨[Entry.Op "+" 8 false], [Entry.Func "sqr" 0], [], Value.Float 0⟩, none)
  ∧ Entry.Func "sqr" 0 ∉
      (Stack.push ⟨[Entry.Func "sqr" 0], [], [], Value.Float 0⟩ "+" none).1.queue :=
  ⟨rfl, by decide⟩

/-- C4, amended: in the pop-by-priority loop of a non-immediate operator
push, an `OpenBracket` at the top of the queue stops the loop early without
being popped, but a `Function` at the top is moved to the output and the
loop continues — only the bracket acts as a barrier. -/
theorem C4_thm :
    (∀ (pri : Int) (rest output : List Entry),
      Stack.pop_while_priority pri (Entry.OpenB :: rest) output
        = (Entry.OpenB :: rest, output))
  ∧ (∀ (pri : Int) (n : String) (a : Nat) (rest output : List Entry),
      Stack.pop_while_priority pri (Entry.Func n a :: rest) output
        = Stack.pop_while_priority pri rest (output ++ [Entry.Func n a])) :=
  ⟨fun _ _ _ => rfl, fun _ _ _ _ _ => rfl⟩

/-- C5: for a newly arriving operator of priority `pri` and an operator
`Op(s, p, r)` at the top of the queue, the queued operator is moved to
output (and the loop continues) iff `p > pri`, or `p = pri` and it is
left-associative (`r = false`); otherwise it stays and the loop stops.
Consequently `2 - 3 - 1 = -2` and `2 ** 2 ** 3 = 256` end to end. -/
theorem C5_thm :
    (∀ (pri : Int) (s : String) (p : Int) (r : Bool) (rest output : List Entry),
      Stack.pop_while_priority pri (Entry.Op s p r :: rest) output =
        if p > pri ∨ (p = pri ∧ r = false) then
          Stack.pop_while_priority pri rest (output ++ [Entry.Op s p r])
        else (Entry.Op s p r :: rest, output))
  ∧ (run_program [("", some (.Int 2)), ("-", none), ("", some (.Int 3)), ("-", none),
      ("", some (.Int 1))]).2 = .ok (.Int (-2))
  ∧ (run_program [("", some (.Int 2)), ("**", none), ("", some (.Int 2)), ("**", none),
      ("", some (.Int 3))]).2 = .ok (.Int 256) :=
  ⟨fun _ _ _ _ _ _ => rfl, rfl, rfl⟩

/-- C6: pushing the immediate-class operator `"!!!"` first drains `Func`
entries at the top of the queue directly to output (`pop_functions`: a
`Func` is moved and the loop continues, any other entry is pushed back and
stops it), then appends the operator itself to output, never placing it in
the queue beyond what `pop_functions` leaves there; end to end
`(3 + 2)!!! = 120`. -/
theorem C6_thm :
    (∀ s : Stack,
        (Stack.push s "!!!" none).2 = none
      ∧ (Stack.push s "!!!" none).1.queue = (Stack.pop_functions s.queue s.output).1
      ∧ (Stack.push s "!!!" none).1.output =
          (Stack.pop_functions s.queue s.output).2 ++ [Entry.Op "!!!" 99 false]
      ∧ (Stack.push s "!!!" none).1.values = s.values
      ∧ (Stack.push s "!!!" none).1.result = s.result)
  ∧ (∀ (n : String) (a : Nat) (rest output : List Entry),
      Stack.pop_functions (Entry.Func n a :: rest) output
        = Stack.pop_functions rest (output ++ [Entry.Func n a]))
  ∧ (∀ (e : Entry) (rest output : List Entry), e.isFunc = false →
      Stack.pop_functions (e :: rest) output = (e :: rest, output))
  ∧ (run_program [("(", none), ("", some (.Int 3)), ("+", none), ("", some (.Int 2)),
      (")", none), ("!!!", none)]).2 = .ok (.Int 120) := by
  refine ⟨fun s => ⟨rfl, rfl, rfl, rfl, rfl⟩, fun _ _ _ _ => rfl, ?_, rfl⟩
  intro e rest output h
  cases e with
  | Val v => rfl
  | Op s p r => rfl
  | OpenB => rfl
  | Func n a => exact absurd h (by simp [Entry.isFunc])

/-- C6, witness for the stop conjunct of the theorem at a non-function
queue entry. -/
theorem C6_witness :
    Entry.isFunc Entry.OpenB = false
  ∧ Stack.pop_functions [Entry.OpenB] [] = ([Entry.OpenB], []) :=
  ⟨rfl, C6_thm.2.2.1 Entry.OpenB [] [] rfl⟩

/-- C7: `fib` dispatched on one exact-integer argument `i` returns the
`i`-th Fibonacci number for `0 ≤ i ≤ 100000` (so `fib(0) = 0`,
`fib(1) = 1`, `fib(10) = 55`); a negative integer fails with
`NotForNegativeInt("fib")`; an integer above 100000 fails with
`ArgumentOutOfRange` carrying the function name, the offending value and
the accepted range (so `fib(100001)` fails that way); a non-integer value
fails with `OnlyInt("fib")`. -/
theorem C7_thm :
    (∀ i : Int, 0 ≤ i → i ≤ 100000 →
      Stack.fib 1 [Value.Int i] = ([Value.Int (Nat.fib i.toNat)], none))
  ∧ Stack.fib 1 [Value.Int 0] = ([Value.Int 0], none)
  ∧ Stack.fib 1 [Value.Int 1] = ([Value.Int 1], none)
  ∧ Stack.fib 1 [Value.Int 10] = ([Value.Int 55], none)
  ∧ (∀ i : Int, i < 0 →
      Stack.fib 1 [Value.Int i] = ([], some (.NotForNegativeInt "fib")))
  ∧ (∀ i : Int, 100000 < i →
      Stack.fib 1 [Value.Int i] =
        ([], some (.ArgumentOutOfRange "fib" (toString i) "[0..1_00_000]")))
  ∧ Stack.fib 1 [Value.Int 100001] =
      ([], some (.ArgumentOutOfRange "fib" "100001" "[0..1_00_000]"))
  ∧ (∀ v : Value, (∀ i : Int, v ≠ Value.Int i) →
      Stack.fib 1 [v] = ([], some (.OnlyInt "fib"))) := by
  have hshape : ∀ i : Int, Stack.fib 1 [Value.Int i] =
      (if i < 0 then ([], some (.NotForNegativeInt "fib"))
       else if 100000 < i then
         ([], some (.ArgumentOutOfRange "fib" (toString i) "[0..1_00_000]"))
       else if i = 0 then ([Value.Int 0], none)
       else ([Value.Int (fib_while 1 0 (i.toNat - 1))], none)) := fun i => rfl
  refine ⟨?_, rfl, rfl, rfl, ?_, ?_, rfl, ?_⟩
  · intro i h0 h1
    rw [hshape, if_neg (by omega), if_neg (by omega)]
    by_cases hz : i = 0
    · subst hz
      rw [if_pos rfl]
      simp
    · rw [if_neg hz]
      have hge : 1 ≤ i.toNat := by omega
      have hfw : fib_while 1 0 (i.toNat - 1) = (Nat.fib i.toNat : Int) := by
        have h := fib_while_eq (i.toNat - 1) 0
        simp only [Nat.zero_add, Nat.fib_one, Nat.fib_zero, Nat.cast_one, Nat.cast_zero,
          Nat.add_zero] at h
        have harg : i.toNat - 1 + 1 = i.toNat := by omega
        rw [h, harg]
      rw [hfw]
  · intro i h
    rw [hshape, if_pos h]
  · intro i h
    rw [hshape, if_neg (by omega), if_pos h]
  · intro v hv
    cases v with
    | Int i => exact absurd rfl (hv i)
    | Float q => rfl
    | Rational q => rfl
    | Complex a b => rfl

/-- C7, witness: the in-range conjunct at `i = 10`, the negative conjunct
at `i = -1`, the out-of-range conjunct at `i = 100001`, and the
non-integer conjunct at the rational value 1/2. -/
theorem C7_witness :
    (0 ≤ (10 : Int)) ∧ ((10 : Int) ≤ 100000)
  ∧ Stack.fib 1 [Value.Int 10] = ([Value.Int 55], none)
  ∧ ((-1 : Int) < 0)
  ∧ Stack.fib 1 [Value.Int (-1)] = ([], some (.NotForNegativeInt "fib"))
  ∧ ((100000 : Int) < 100001)
  ∧ Stack.fib 1 [Value.Int 100001] =
      ([], some (.ArgumentOutOfRange "fib" (toString (100001 : Int)) "[0..1_00_000]"))
  ∧ (∀ i : Int, Value.Rational (1 / 2) ≠ Value.Int i)
  ∧ Stack.fib 1 [Value.Rational (1 / 2)] = ([], some (.OnlyInt "fib")) := by
  refine ⟨by decide, by decide, ?_, by decide, C7_thm.2.2.2.2.1 (-1) (by decide), by decide,
    C7_thm.2.2.2.2.2.1 100001 (by decide), fun i h => by simp at h,
    C7_thm.2.2.2.2.2.2.2 (Value.Rational (1 / 2)) (fun i h => by simp at h)⟩
  have h := C7_thm.1 10 (by decide) (by decide)
  simpa using h

/-- C8, counterexample: the close-bracket increment is unconditional, so a
function closed with zero arguments reaches the output with arity 1, not
arity 0 as the claim states: after pushing `sqr`, `(`, `)` the queue holds
`Func("sqr", 1)`, and draining it puts `Func("sqr", 1)` into the output. -/
theorem C8_counterexample :
    (run_pushes Stack.new [("sqr", none), ("(", none), (")", none)]).queue
      = [Entry.Func "sqr" 1]
  ∧ (Stack.pop_all [Entry.Func "sqr" 1] []).2.1 = [Entry.Func "sqr" 1]
  ∧ (Stack.pop_all [Entry.Func "sqr" 1] []).2.1 ≠ [Entry.Func "sqr" 0] :=
  ⟨rfl, rfl, by decide⟩

/-- C8, amended: when the matching bracket of a function closes (or an
argument separator fires), the arity of a `Function` sitting immediately
beneath the bracket is incremented UNCONDITIONALLY — whether or not any
argument was supplied — so a function token reaches the output with arity
= number of separators + 1: `f()` and `f(a)` both finalize at arity 1 and
`f(a; b)` at arity 2, as the concrete `sqr` push sequences show. -/
theorem C8_thm :
    (∀ (n : String) (a : Nat) (rest : List Entry),
      Stack.update_func_args (Entry.Func n a :: rest) = Entry.Func n (a + 1) :: rest)
  ∧ (∀ (keep : Bool) (n : String) (a : Nat) (rest output : List Entry),
      Stack.pop_until_bracket keep (Entry.OpenB :: Entry.Func n a :: rest) output =
        ((if keep then Entry.OpenB :: Entry.Func n (a + 1) :: rest
          else Entry.Func n (a + 1) :: rest), output, none))
  ∧ (run_pushes Stack.new [("sqr", none), ("(", none), (")", none)]).queue
      = [Entry.Func "sqr" 1]
  ∧ (run_pushes Stack.new [("sqr", none), ("(", none), ("", some (.Int 5)),
      (")", none)]).queue = [Entry.Func "sqr" 1]
  ∧ (run_pushes Stack.new [("sqr", none), ("(", none), ("", some (.Int 4)), (";", none),
      ("", some (.Int 2)), (")", none)]).queue = [Entry.Func "sqr" 2] :=
  ⟨fun _ _ _ => rfl, fun _ _ _ _ _ => rfl, rfl, rfl, rfl⟩

/-- C9: pushing any non-empty symbol that is not a recognized function
name, bracket, or argument separator and whose table priority is 0 returns
`InvalidOp` carrying the symbol and leaves the whole stack — queue and
output included — exactly unchanged; likewise an empty-symbol push with no
value returns `EmptyValue` with the stack unchanged. -/
theorem C9_thm :
    (∀ (s : Stack) (op : String) (val : Option Value),
      op ≠ "" → Stack.is_func op = false → op ≠ "(" → op ≠ ")" → op ≠ ";" →
      (Stack.priority op).1 = 0 →
      Stack.push s op val = (s, some (CalcError.InvalidOp op)))
  ∧ (∀ s : Stack, Stack.push s "" none = (s, some CalcError.EmptyValue)) := by
  refine ⟨?_, fun s => rfl⟩
  intro s op val h1 h2 h3 h4 h5 h6
  simp [Stack.push, h1, h2, h3, h4, h5, h6]

/-- C9, witness at the unrecognized symbol `"@"` on a fresh stack. -/
theorem C9_witness :
    ("@" ≠ "") ∧ Stack.is_func "@" = false ∧ ("@" ≠ "(") ∧ ("@" ≠ ")") ∧ ("@" ≠ ";")
  ∧ (Stack.priority "@").1 = 0
  ∧ Stack.push Stack.new "@" none = (Stack.new, some (CalcError.InvalidOp "@")) :=
  ⟨by decide, by decide, by decide, by decide, by decide, by decide,
   C9_thm.1 Stack.new "@" none (by decide) (by decide) (by decide) (by decide)
     (by decide) (by decide)⟩

/-- C10: `calculate` reads the output sequence by index without consuming
it, so a successful `calculate` is idempotent — running it again on the
post-state returns the same post-state and the same `Ok` result. -/
theorem C10_thm (s s' : Stack) (v : Value)
    (h : Stack.calculate s = (s', Except.ok v)) :
    Stack.calculate s' = (s', Except.ok v) := by
  unfold Stack.calculate at h
  split at h
  · simp at h
  · rename_i q o hpa
    split at h
    · simp at h
    · rename_i ho
      split at h
      · simp at h
      · rename_i w hcl
        injection h with h1 h2
        injection h2 with h2
        subst h1
        subst h2
        have hq : q = [] := pop_all_queue_nil s.queue s.output q o hpa
        subst hq
        show Stack.calculate ⟨[], o, [], w⟩ = (⟨[], o, [], w⟩, Except.ok w)
        unfold Stack.calculate
        simp only [Stack.pop_all]
        rw [if_neg ho]
        simp only [hcl]
      · rename_i vals hne hcl
        simp at h

/-- C10, witness: a one-operand session (`push` of the value 5, then
`calculate`) reaches a post-state on which `calculate` returns the same
`Ok` result and the same state. -/
theorem C10_witness :
    Stack.calculate ⟨[], [Entry.Val (Value.Int 5)], [], Value.Float 0⟩ =
      (⟨[], [Entry.Val (Value.Int 5)], [], Value.Int 5⟩, Except.ok (Value.Int 5))
  ∧ Stack.calculate ⟨[], [Entry.Val (Value.Int 5)], [], Value.Int 5⟩ =
      (⟨[], [Entry.Val (Value.Int 5)], [], Value.Int 5⟩, Except.ok (Value.Int 5)) :=
  ⟨rfl, C10_thm ⟨[], [Entry.Val (Value.Int 5)], [], Value.Float 0⟩
    ⟨[], [Entry.Val (Value.Int 5)], [], Value.Int 5⟩ (Value.Int 5) rfl⟩
